import Mathlib

/-!
Verification of the shioaji-kafka bridge's resilience supervisor.

This file shallowly embeds the Python sources of the repository
(`src/main.py`, `src/shioaji_kafka_bridge/{config, utils, kafka_handler,
bridge_service, shioaji_manager}.py`) as executable Lean definitions and
proves or refutes the specification's claims about them.

Modelling conventions:
* A wall-clock instant is a `PyDateTime`: a calendar date counted in days
  from a fixed Monday (`date : Int`, so `date % 7` is Python's
  `datetime.weekday()` with Monday = 0), plus a time of day in seconds
  since midnight.
* Python module attribute access (`config.NAME`) is a lookup in an
  association list holding exactly the assignments that module makes;
  a name absent from the list raises `AttributeError`, as in Python.
* Calls into external SDKs (Shioaji, confluent-kafka) are oracles: each
  embedded function takes an environment record saying what the external
  call returned or whether it raised.
* Python exceptions are explicit: a function that can raise returns
  `Except PyExc _`; an exception a `try/except` of the source catches is
  handled in the embedding at the same place.
-/

namespace SKBridge

/-- Python exception kinds the sources raise or catch. -/
inductive PyExc where
  | attributeError
  | apiLoginFetchError
  | kafkaProducerError
  | otherError
deriving DecidableEq, Repr

/-! ## config.py -/

/-- `MONITOR_INTERVAL = 30` (config.py). -/
def MONITOR_INTERVAL : Nat := 30

/-- `TIMEOUT_SECONDS = 360` (config.py). -/
def TIMEOUT_SECONDS : Int := 360

/-- `MAX_TIMEOUT_RETRIES = 3` (config.py). -/
def MAX_TIMEOUT_RETRIES : Nat := 3

/-- `TRADING_BUFFER_MIN = 1` (config.py; referenced nowhere else). -/
def TRADING_BUFFER_MIN : Int := 1

/-- `DAY_SESSION_START = dt_time(8, 30)` in seconds since midnight. -/
def DAY_SESSION_START : Nat := 8 * 3600 + 30 * 60

/-- `DAY_SESSION_END = dt_time(13, 45)` in seconds since midnight. -/
def DAY_SESSION_END : Nat := 13 * 3600 + 45 * 60

/-- `NIGHT_SESSION_START = dt_time(14, 50)` in seconds since midnight. -/
def NIGHT_SESSION_START : Nat := 14 * 3600 + 50 * 60

/-- `NIGHT_SESSION_END = dt_time(5, 0)` in seconds since midnight. -/
def NIGHT_SESSION_END : Nat := 5 * 3600

/-- The numeric module attributes config.py defines in its monitor-settings
and trading-hours section, by their Python names.  Exactly these assignments
appear in config.py; in particular no `DAY_SESSION_SLOW_TICK_THRESHOLD` or
`NIGHT_SESSION_SLOW_TICK_THRESHOLD` is assigned anywhere in the module. -/
def configNumericAttrs : List (String × Int) :=
  [("MONITOR_INTERVAL", (MONITOR_INTERVAL : Int)),
   ("TIMEOUT_SECONDS", TIMEOUT_SECONDS),
   ("MAX_TIMEOUT_RETRIES", (MAX_TIMEOUT_RETRIES : Int)),
   ("TRADING_BUFFER_MIN", TRADING_BUFFER_MIN)]

/-- Python attribute access on the config module for a numeric name:
`AttributeError` when config.py makes no such assignment. -/
def configGetNumericAttr (name : String) : Except PyExc Int :=
  match configNumericAttrs.lookup name with
  | some v => Except.ok v
  | none => Except.error PyExc.attributeError

/-- The string-valued module attributes config.py defines
(`API_KEY = os.environ.get("SHIOAJI_API_KEY")` and so on), as a function of
the process environment.  Note the attribute names are `API_KEY` and
`SECRET_KEY`, not the environment-variable names. -/
def configStringAttrs (env : String → Option String) : List (String × Option String) :=
  [("API_KEY", env "SHIOAJI_API_KEY"),
   ("SECRET_KEY", env "SHIOAJI_SECRET_KEY"),
   ("KAFKA_BROKER", env "KAFKA_BROKER"),
   ("KAFKA_TOPIC", env "KAFKA_TOPIC")]

/-- Python attribute access on the config module for a string-valued name. -/
def configGetStringAttr (env : String → Option String) (name : String) :
    Except PyExc (Option String) :=
  match (configStringAttrs env).lookup name with
  | some v => Except.ok v
  | none => Except.error PyExc.attributeError

/-- Python truthiness of an optional string: `None` and `""` are falsy. -/
def pyTruthy (v : Option String) : Bool :=
  match v with
  | none => false
  | some s => decide (s ≠ "")

/-! ## main.py, startup credential check -/

/-- main.py lines 22-24:
`if not config.SHIOAJI_API_KEY or not config.SHIOAJI_SECRET_KEY: sys.exit(1)`.
Returns `true` when the guard is taken (exit code 1), `false` when the check
passes and execution proceeds; raises whatever the attribute reads raise. -/
def mainCredentialGate (env : String → Option String) : Except PyExc Bool := do
  let k ← configGetStringAttr env "SHIOAJI_API_KEY"
  if pyTruthy k = false then
    pure true
  else do
    let s ← configGetStringAttr env "SHIOAJI_SECRET_KEY"
    pure (pyTruthy s = false)

/-- An environment with both credential variables set and non-empty. -/
def envBothCredentialsSet : String → Option String := fun n =>
  if n = "SHIOAJI_API_KEY" then some "key"
  else if n = "SHIOAJI_SECRET_KEY" then some "secret"
  else none

/-! ## utils.py, clock and schedule -/

/-- A timezone-naive Python datetime, as utils.is_trading_time normalizes
its input: a calendar date in days since a fixed Monday and a time of day
in seconds since midnight. -/
structure PyDateTime where
  date : Int
  timeOfDay : Nat
deriving DecidableEq, Repr

/-- Python's `datetime.weekday()`: Monday = 0 ... Sunday = 6. -/
def pyWeekday (dt : PyDateTime) : Int := dt.date % 7

def secondsPerDay : Nat := 86400

/-- `buffer = timedelta(seconds=2 * config.MONITOR_INTERVAL)` (utils.py). -/
def bufferSeconds : Nat := 2 * MONITOR_INTERVAL

/-- `(datetime.combine(d, DAY_SESSION_START) - buffer).time()`. -/
def dayOpenBuffered : Nat :=
  (DAY_SESSION_START + (secondsPerDay - bufferSeconds)) % secondsPerDay

/-- `(datetime.combine(d, DAY_SESSION_END) + buffer).time()`. -/
def dayCloseBuffered : Nat := (DAY_SESSION_END + bufferSeconds) % secondsPerDay

/-- `(datetime.combine(d, NIGHT_SESSION_START) - buffer).time()`. -/
def nightOpenBuffered : Nat :=
  (NIGHT_SESSION_START + (secondsPerDay - bufferSeconds)) % secondsPerDay

/-- `(datetime.combine(d, NIGHT_SESSION_END) + buffer).time()`. -/
def nightCloseBuffered : Nat := (NIGHT_SESSION_END + bufferSeconds) % secondsPerDay

/-- `day_open <= time_now < day_close` on the buffered bounds. -/
def inDaySession (t : Nat) : Bool :=
  decide (dayOpenBuffered ≤ t ∧ t < dayCloseBuffered)

/-- Night-session membership (utils.py lines 96-100): same-day window when
`night_open < night_close`, otherwise the overnight wrap-around test. -/
def inNightSession (t : Nat) : Bool :=
  if nightOpenBuffered < nightCloseBuffered then
    decide (nightOpenBuffered ≤ t ∧ t < nightCloseBuffered)
  else
    decide (nightOpenBuffered ≤ t ∨ t < nightCloseBuffered)

/-- utils.py line 76: `dt_now.date() == day_off_date` (with
`if day_off_date:` — a date object is always truthy, so this is a
None-check). -/
def holidayClosed (dt : PyDateTime) (dayOffDate : Option Int) : Bool :=
  match dayOffDate with
  | none => false
  | some d => decide (dt.date = d)

/-- utils.py line 79: the morning after the holiday, before the (buffered)
day-session open, is also closed. -/
def holidayNextMorningClosed (dt : PyDateTime) (dayOffDate : Option Int) : Bool :=
  match dayOffDate with
  | none => false
  | some d => decide (dt.date = d + 1 ∧ dt.timeOfDay < dayOpenBuffered)

/-- utils.is_trading_time, translated clause for clause (utils.py 30-102). -/
def is_trading_time (dtNow : PyDateTime) (dayOffDate : Option Int) : Bool :=
  if holidayClosed dtNow dayOffDate then false
  else if holidayNextMorningClosed dtNow dayOffDate then false
  else if pyWeekday dtNow = 6 then false
  else if pyWeekday dtNow = 5 ∧ nightCloseBuffered ≤ dtNow.timeOfDay
          ∧ nightCloseBuffered < nightOpenBuffered then false
  else if pyWeekday dtNow = 0 ∧ dtNow.timeOfDay < dayOpenBuffered then false
  else inDaySession dtNow.timeOfDay || inNightSession dtNow.timeOfDay

/-- utils.get_current_warning_threshold (utils.py 105-120): picks the day or
night slow-tick threshold by comparing the unbuffered session starts, then
reads `config.DAY_SESSION_SLOW_TICK_THRESHOLD` or
`config.NIGHT_SESSION_SLOW_TICK_THRESHOLD` — names config.py never assigns. -/
def get_current_warning_threshold (dtNow : PyDateTime) : Except PyExc Int :=
  if DAY_SESSION_START ≤ dtNow.timeOfDay ∧ dtNow.timeOfDay < NIGHT_SESSION_START then
    configGetNumericAttr "DAY_SESSION_SLOW_TICK_THRESHOLD"
  else
    configGetNumericAttr "NIGHT_SESSION_SLOW_TICK_THRESHOLD"

/-! ## kafka_handler.py, downstream probe -/

/-- kafka_handler.has_opening_kafka_ticks lines 65-70, the session-start
choice: `(start_date, start_time)` in the exchange zone.  The day window is
the unbuffered `DAY_SESSION_START <= now.time() < NIGHT_SESSION_START`;
otherwise the night open is dated yesterday exactly when
`now.time() < NIGHT_SESSION_END`. -/
def sessionOpenStart (now : PyDateTime) : Int × Nat :=
  if DAY_SESSION_START ≤ now.timeOfDay ∧ now.timeOfDay < NIGHT_SESSION_START then
    (now.date, DAY_SESSION_START)
  else
    (if now.timeOfDay < NIGHT_SESSION_END then now.date - 1 else now.date,
     NIGHT_SESSION_START)

/-- `datetime.combine(start_date, start_time, tzinfo=TW_TZ)` converted to UTC
milliseconds; Asia/Taipei is UTC+8 with no DST. -/
def taipeiToUtcMillis (d : Int) (t : Nat) : Int :=
  ((d * 86400 + (t : Int)) - 8 * 3600) * 1000

/-- kafka_handler.py line 73: `start_utc_ms`. -/
def sessionOpenUtcMillis (now : PyDateTime) : Int :=
  taipeiToUtcMillis (sessionOpenStart now).1 (sessionOpenStart now).2

/-- Result of a confluent-kafka call: a value, or an exception raised. -/
inductive KRes (α : Type) where
  | ok (val : α)
  | raised
deriving DecidableEq, Repr

/-- What the broker or client library did during one probe: whether the
`Consumer(...)` constructor raised, what `list_topics` returned (`none` for a
metadata object whose `topics.get(KAFKA_TOPIC)` is falsy, `some ps` for the
topic's partition ids), and, per queried timestamp, what `offsets_for_times`
returned (one broker offset per partition, `-1` the no-message sentinel). -/
structure KafkaProbeEnv where
  consumerInitRaises : Bool
  listTopicsResult : KRes (Option (List Nat))
  offsetsForTimesResult : Int → KRes (List Int)

/-- kafka_handler.has_opening_kafka_ticks (lines 57-118): everything from the
consumer construction on sits in a `try` whose `except` returns `True`;
an absent topic returns `False`; otherwise the result is whether any
partition reported an offset other than the `-1` sentinel. -/
def has_opening_kafka_ticks (now : PyDateTime) (env : KafkaProbeEnv) : Bool :=
  if env.consumerInitRaises then true
  else
    match env.listTopicsResult with
    | KRes.raised => true
    | KRes.ok none => false
    | KRes.ok (some _) =>
      match env.offsetsForTimesResult (sessionOpenUtcMillis now) with
      | KRes.raised => true
      | KRes.ok offsets => offsets.any (fun o => decide (o ≠ -1))

/-! ## shioaji_manager.py -/

/-- `self._pending_operation` values ("subscribe_tick" / "unsubscribe_tick"). -/
inductive PendingOp where
  | subscribeTick
  | unsubscribeTick
deriving DecidableEq, Repr

/-- ShioajiManager's mutable state: the SDK handle (`None` or an opaque
identity, numbered by creation order), `self._subscribed` and
`self._pending_operation`. -/
structure ManagerState where
  api : Option Nat
  subscribed : Bool
  pending : Option PendingOp
deriving DecidableEq, Repr

/-- Externally visible steps the manager takes, for stating which calls a
code path makes. -/
inductive ManagerAct where
  | unsubscribeRequest
  | warnRequestFailed
  | warnConfirmTimeout
  | logoutInvoked
  | subscribeRequest (handle : Nat)
  | logAlreadySubscribed
deriving DecidableEq, Repr

/-- ShioajiManager._on_event for `event_code == 16` (lines 44-57): resolve
the pending operation; `self._pending_operation = None` runs in every
code-16 case. -/
def applyEvent16 (st : ManagerState) : ManagerState :=
  match st.pending with
  | some PendingOp.subscribeTick => { st with subscribed := true, pending := none }
  | some PendingOp.unsubscribeTick => { st with subscribed := false, pending := none }
  | none => { st with pending := none }

/-- ShioajiManager.logout (lines 162-173): best-effort; the `finally` sets
`self._api = None` whether or not the SDK call raised or the handle was
already gone. -/
def logoutState (st : ManagerState) : ManagerState := { st with api := none }

/-- Oracle for one unsubscribe_ticks call: whether
`self._api.quote.unsubscribe(...)` raised, and at which of the 100 polls of
the wait loop (if any) the SDK's confirmation event had been processed. -/
structure UnsubscribeEnv where
  requestRaises : Bool
  confirmArrivesAt : Option Nat
deriving DecidableEq, Repr

/-- ShioajiManager.unsubscribe_ticks (lines 108-131).  Early return when not
subscribed; otherwise set the pending op and issue the request.  If the
request raises, the `except` clears the pending op, logs a warning and the
method returns — `self.logout()` sits inside the `try` and is not reached.
Otherwise poll up to 100 times for the confirmation, warn on timeout, and
call `self.logout()`. -/
def unsubscribe_ticks (st : ManagerState) (env : UnsubscribeEnv) :
    ManagerState × List ManagerAct :=
  if st.subscribed = false then (st, [])
  else
    if env.requestRaises then
      ({ st with pending := none },
       [ManagerAct.unsubscribeRequest, ManagerAct.warnRequestFailed])
    else
      match env.confirmArrivesAt with
      | some k =>
        if k < 100 then
          (logoutState (applyEvent16 { st with pending := some PendingOp.unsubscribeTick }),
           [ManagerAct.unsubscribeRequest, ManagerAct.logoutInvoked])
        else
          (logoutState { st with pending := some PendingOp.unsubscribeTick },
           [ManagerAct.unsubscribeRequest, ManagerAct.warnConfirmTimeout,
            ManagerAct.logoutInvoked])
      | none =>
        (logoutState { st with pending := some PendingOp.unsubscribeTick },
         [ManagerAct.unsubscribeRequest, ManagerAct.warnConfirmTimeout,
          ManagerAct.logoutInvoked])

/-- Server-side world for connect_and_subscribe: the number the next
`sj.Shioaji(...)` instance gets, and the handles on which a tick
subscription has been placed. -/
structure SdkWorld where
  nextHandle : Nat
  liveSubscribedHandles : List Nat
deriving DecidableEq, Repr

/-- Oracle for one connect_and_subscribe call. -/
structure ConnectEnv where
  loginRaises : Bool
  contractAvailable : Bool
  subscribeRaises : Bool
deriving DecidableEq, Repr

/-- ShioajiManager.connect_and_subscribe (lines 64-92) together with
subscribe_ticks (94-106).  `_create_new_api_instance` replaces `self._api`
with a fresh handle unconditionally, before any subscribed check; login
failure or an unavailable contract raises `APILoginFetchError` (the state
mutations made so far persist); then `subscribe_ticks` is issued only when
`self._subscribed` is false, else only "Already subscribed" is logged.
Returns (state, world, calls made, exception raised if any). -/
def connect_and_subscribe (st : ManagerState) (w : SdkWorld) (env : ConnectEnv) :
    ManagerState × SdkWorld × List ManagerAct × Option PyExc :=
  let h := w.nextHandle
  let st1 : ManagerState := { st with api := some h }
  let w1 : SdkWorld := { w with nextHandle := w.nextHandle + 1 }
  if env.loginRaises then (st1, w1, [], some PyExc.apiLoginFetchError)
  else if env.contractAvailable = false then
    (st1, w1, [], some PyExc.apiLoginFetchError)
  else if st1.subscribed = false then
    if env.subscribeRaises then
      ({ st1 with pending := none }, w1, [ManagerAct.subscribeRequest h], none)
    else
      ({ st1 with pending := some PendingOp.subscribeTick },
       { w1 with liveSubscribedHandles := h :: w1.liveSubscribedHandles },
       [ManagerAct.subscribeRequest h], none)
  else (st1, w1, [ManagerAct.logAlreadySubscribed], none)

/-! ## bridge_service.py, supervisor loop -/

/-- The supervisor's per-loop state: `self.last_tick_time` (a `time.time()`
reading), `self.day_off_date`, and the loop locals `timeout_retries`,
`slow_tick_warning_level`, `was_trading`. -/
structure MonitorState where
  last_tick_time : Int
  day_off_date : Option Int
  timeout_retries : Nat
  slow_tick_warning_level : Nat
  was_trading : Bool
deriving DecidableEq, Repr

/-- What one monitor iteration observes of the outside world:
`datetime.now(TW_TZ)`, the `time.time()` reading of the health check, the
manager's `subscribed` flag, whether `connect_and_subscribe` raised
`APILoginFetchError` (the loop catches it either way), and what
`has_opening_kafka_ticks()` returned if consulted. -/
structure IterEnv where
  dtNow : PyDateTime
  wallTime : Int
  subscribed : Bool
  connectRaises : Bool
  probeHasTicks : Bool
deriving DecidableEq, Repr

/-- The calls one monitor iteration makes, in order. -/
inductive MonitorAct where
  | pollProducer
  | unsubscribeTicks
  | connectAttempt
  | consultProbe
  | reconnectTickTimeout
  | warnSlowTick
  | logRecovered
deriving DecidableEq, Repr

/-- One iteration of BridgeService._monitor_loop's `while` body
(bridge_service.py lines 79-162), translated block for block.  Block 2
(market closed) unsubscribes if needed and zeroes both counters; otherwise
`day_off_date` is cleared.  Block 3 attempts a connection when not
subscribed and continues.  Block 4 first calls
`utils.get_current_warning_threshold(dt_now)` — whose exception, if raised,
nothing in the loop catches — then runs the critical-timeout / slow-tick /
recovery arms.  In the critical arm `slow_tick_warning_level` is zeroed and
`timeout_retries` incremented; past `MAX_TIMEOUT_RETRIES` the Kafka probe
decides holiday (set `day_off_date`, unsubscribe, zero retries, continue)
versus reconnect; every non-holiday critical arm reconnects with reason
"Tick Timeout". -/
def monitorStep (s : MonitorState) (e : IterEnv) :
    Except PyExc (MonitorState × List MonitorAct) :=
  if is_trading_time e.dtNow s.day_off_date = false then
    Except.ok
      ({ s with was_trading := false, timeout_retries := 0, slow_tick_warning_level := 0 },
       if e.subscribed then [MonitorAct.pollProducer, MonitorAct.unsubscribeTicks]
       else [MonitorAct.pollProducer])
  else if e.subscribed = false then
    Except.ok
      ({ s with was_trading := true, day_off_date := none },
       [MonitorAct.pollProducer, MonitorAct.connectAttempt])
  else
    match get_current_warning_threshold e.dtNow with
    | Except.error exc => Except.error exc
    | Except.ok threshold =>
      if e.wallTime - s.last_tick_time > TIMEOUT_SECONDS then
        if s.timeout_retries + 1 > MAX_TIMEOUT_RETRIES then
          if e.probeHasTicks = false then
            Except.ok
              ({ s with was_trading := true, day_off_date := some e.dtNow.date, slow_tick_warning_level := 0, timeout_retries := 0 },
               [MonitorAct.pollProducer, MonitorAct.consultProbe,
                MonitorAct.unsubscribeTicks])
          else
            Except.ok
              ({ s with was_trading := true, day_off_date := none, slow_tick_warning_level := 0, timeout_retries := s.timeout_retries + 1 },
               [MonitorAct.pollProducer, MonitorAct.consultProbe,
                MonitorAct.reconnectTickTimeout])
        else
          Except.ok
            ({ s with was_trading := true, day_off_date := none, slow_tick_warning_level := 0, timeout_retries := s.timeout_retries + 1 },
             [MonitorAct.pollProducer, MonitorAct.reconnectTickTimeout])
      else if e.wallTime - s.last_tick_time >
          threshold + 60 * (s.slow_tick_warning_level : Int) then
        Except.ok
          ({ s with was_trading := true, day_off_date := none, slow_tick_warning_level := s.slow_tick_warning_level + 1 },
           [MonitorAct.pollProducer, MonitorAct.warnSlowTick])
      else if e.wallTime - s.last_tick_time < threshold ∧ 0 < s.slow_tick_warning_level then
        Except.ok
          ({ s with was_trading := true, day_off_date := none, slow_tick_warning_level := 0 },
           [MonitorAct.pollProducer, MonitorAct.logRecovered])
      else
        Except.ok
          ({ s with was_trading := true, day_off_date := none },
           [MonitorAct.pollProducer])

/-- Run the monitor loop over a sequence of iteration environments; an
uncaught exception kills the loop thread (`none`). -/
def runMonitor : MonitorState → List IterEnv → Option MonitorState
  | s, [] => some s
  | s, e :: es =>
    match monitorStep s e with
    | Except.ok (s', _) => runMonitor s' es
    | Except.error _ => none

/-- BridgeService._handle_new_tick (lines 32-39): `last_tick_time` is set to
`time.time()` only after `orjson.dumps` and `producer.produce` succeeded; on
any exception the tick is dropped and the timestamp not written. -/
def handleNewTick (lastTick : Int) (produceRaises : Bool) (wallTime : Int) : Int :=
  if produceRaises then lastTick else wallTime

/-- The three kinds of event that touch BridgeService state: a tick
delivered to `_handle_new_tick` (with whether serialize/produce raised and
the `time.time()` reading), the subscription-confirmed callback
`_on_subscription_success`, and one supervisor iteration. -/
inductive ServiceEvent where
  | tickArrives (produceRaises : Bool) (wallTime : Int)
  | subscriptionConfirmed (wallTime : Int)
  | monitorIteration (e : IterEnv)
deriving DecidableEq, Repr

/-- Effect of one service event on the supervisor state. -/
def serviceStep (s : MonitorState) (ev : ServiceEvent) :
    Except PyExc (MonitorState × List MonitorAct) :=
  match ev with
  | ServiceEvent.tickArrives pr t =>
    Except.ok ({ s with last_tick_time := handleNewTick s.last_tick_time pr t }, [])
  | ServiceEvent.subscriptionConfirmed t =>
    Except.ok ({ s with last_tick_time := t }, [])
  | ServiceEvent.monitorIteration e => monitorStep s e

/-- The `time.time()` reading an event writes from, with a fallback for the
monitor iteration (which writes nothing). -/
def clockOfEvent (ev : ServiceEvent) (fallback : Int) : Int :=
  match ev with
  | ServiceEvent.tickArrives _ t => t
  | ServiceEvent.subscriptionConfirmed t => t
  | ServiceEvent.monitorIteration _ => fallback

/-- The amended write rule for `last_tick_time`: written on every tick whose
serialize-and-produce succeeded and on every subscription-confirmed event;
never written by a supervisor iteration. -/
def lastTickWritePolicy (s : MonitorState) (ev : ServiceEvent) : Int :=
  match ev with
  | ServiceEvent.tickArrives produceRaises t =>
    if produceRaises then s.last_tick_time else t
  | ServiceEvent.subscriptionConfirmed t => t
  | ServiceEvent.monitorIteration _ => s.last_tick_time

/-! ## Definitions written from the spec's words, for comparison with the
embedded code -/

/-- The session-open rule as the spec's probe sentence states it: today's
day-open when `now.time ∈ [day_open, night_open)`; otherwise the most recent
night-open — today's if `now.time ≥ night_open`, else yesterday's. -/
def sessionOpenStartClaimed (now : PyDateTime) : Int × Nat :=
  if DAY_SESSION_START ≤ now.timeOfDay ∧ now.timeOfDay < NIGHT_SESSION_START then
    (now.date, DAY_SESSION_START)
  else
    (if NIGHT_SESSION_START ≤ now.timeOfDay then now.date else now.date - 1,
     NIGHT_SESSION_START)

/-- The session-open rule as the code actually computes it (the amended
claim): today's day-open in the day window; otherwise the night-open dated
yesterday exactly when `now.time < night_close`, today otherwise — so for
`now.time ∈ [night_close, day_open)` the open used is today's (future)
night-open. -/
def sessionOpenStartAmended (now : PyDateTime) : Int × Nat :=
  if DAY_SESSION_START ≤ now.timeOfDay ∧ now.timeOfDay < NIGHT_SESSION_START then
    (now.date, DAY_SESSION_START)
  else if now.timeOfDay < NIGHT_SESSION_END then (now.date - 1, NIGHT_SESSION_START)
  else (now.date, NIGHT_SESSION_START)

/-- The probe's result as the C5 sentences describe it: true on any
exception during the lookup; false when the topic is absent; otherwise true
iff some partition reported a valid (non `-1`) offset. -/
def probeClaimedResult (now : PyDateTime) (env : KafkaProbeEnv) : Bool :=
  match env.consumerInitRaises, env.listTopicsResult,
        env.offsetsForTimesResult (sessionOpenUtcMillis now) with
  | true, _, _ => true
  | false, KRes.raised, _ => true
  | false, KRes.ok none, _ => false
  | false, KRes.ok (some _), KRes.raised => true
  | false, KRes.ok (some _), KRes.ok offsets => offsets.any (fun o => decide (o ≠ -1))

/-- What C6 says `is_trading_time` does on a Saturday: closed when the night
session does NOT wrap midnight and the time is at or past the (buffered)
night close; every other Saturday time falls through to the regular
day/night membership rules. -/
def saturdayClaimedResult (dt : PyDateTime) : Bool :=
  if ¬(nightCloseBuffered < nightOpenBuffered) ∧ nightCloseBuffered ≤ dt.timeOfDay then
    false
  else inDaySession dt.timeOfDay || inNightSession dt.timeOfDay

/-- unsubscribe_ticks as the amended C8 describes it: a no-op when not
subscribed; when the unsubscribe request raises, the exception is caught,
the pending op cleared and a warning logged, and `logout()` is NOT reached;
otherwise the confirmation is awaited (timeout warning when it does not
arrive within the 100 polls) and `logout()` releases the handle. -/
def unsubscribeAmendedSpec (st : ManagerState) (env : UnsubscribeEnv) :
    ManagerState × List ManagerAct :=
  if st.subscribed = false then (st, [])
  else if env.requestRaises then
    ({ st with pending := none },
     [ManagerAct.unsubscribeRequest, ManagerAct.warnRequestFailed])
  else if (match env.confirmArrivesAt with | some k => decide (k < 100) | none => false) then
    ({ st with api := none, subscribed := false, pending := none },
     [ManagerAct.unsubscribeRequest, ManagerAct.logoutInvoked])
  else
    ({ st with api := none, pending := some PendingOp.unsubscribeTick },
     [ManagerAct.unsubscribeRequest, ManagerAct.warnConfirmTimeout,
      ManagerAct.logoutInvoked])

/-! ## Concrete inputs used by the per-claim theorems -/

/-- Wednesday 09:00 with a subscription up and 400 s of tick silence:
the critical-timeout conditions of C1 hold (400 > TIMEOUT_SECONDS),
and the incremented retries exceed MAX_TIMEOUT_RETRIES. -/
def c1State : MonitorState :=
  { last_tick_time := 1000, day_off_date := none, timeout_retries := 3,
    slow_tick_warning_level := 2, was_trading := true }

def c1Env : IterEnv :=
  { dtNow := { date := 2, timeOfDay := 32400 }, wallTime := 1400,
    subscribed := true, connectRaises := false, probeHasTicks := false }

/-- Thursday 16:40 (night session, trading), subscribed, silence 100 s —
a healthy iteration that per the spec would take the slow-tick/recovery
arms. -/
def c3State : MonitorState :=
  { last_tick_time := 500, day_off_date := none, timeout_retries := 0,
    slow_tick_warning_level := 0, was_trading := true }

def c3Env : IterEnv :=
  { dtNow := { date := 3, timeOfDay := 60000 }, wallTime := 600,
    subscribed := true, connectRaises := false, probeHasTicks := true }

/-- The loop-start state: `timeout_retries = 0`, `slow_tick_warning_level = 0`. -/
def c7StartState : MonitorState :=
  { last_tick_time := 0, day_off_date := none, timeout_retries := 0,
    slow_tick_warning_level := 0, was_trading := false }

/-- Sunday noon, not subscribed: a non-trading iteration. -/
def c7SundayEnv : IterEnv :=
  { dtNow := { date := 6, timeOfDay := 43200 }, wallTime := 100,
    subscribed := false, connectRaises := false, probeHasTicks := true }

/-- A subscribed manager holding handle 7, no pending op. -/
def c8ManagerState : ManagerState :=
  { api := some 7, subscribed := true, pending := none }

/-- The unsubscribe request itself raises. -/
def c8RaiseEnv : UnsubscribeEnv := { requestRaises := true, confirmArrivesAt := none }

/-- A manager already subscribed: handle 0 holds the live subscription. -/
def c9State0 : ManagerState := { api := some 0, subscribed := true, pending := none }

def c9World0 : SdkWorld := { nextHandle := 1, liveSubscribedHandles := [0] }

/-- A fully successful environment: login works, contract is available,
the subscribe request would not raise. -/
def c9GoodEnv : ConnectEnv :=
  { loginRaises := false, contractAvailable := true, subscribeRaises := false }

/-- First connect_and_subscribe call on an already-subscribed manager. -/
def c9Call1 : ManagerState × SdkWorld × List ManagerAct × Option PyExc :=
  connect_and_subscribe c9State0 c9World0 c9GoodEnv

/-- Second consecutive call, no intervening disconnect. -/
def c9Call2 : ManagerState × SdkWorld × List ManagerAct × Option PyExc :=
  connect_and_subscribe c9Call1.1 c9Call1.2.1 c9GoodEnv

/-- A trading-resumption iteration: `was_trading = false`, Wednesday 09:00 is
trading, the subscription is down, the wall clock reads 5000 while
`last_tick_time` is 1000. -/
def c10State : MonitorState :=
  { last_tick_time := 1000, day_off_date := none, timeout_retries := 0,
    slow_tick_warning_level := 0, was_trading := false }

def c10Env : IterEnv :=
  { dtNow := { date := 2, timeOfDay := 32400 }, wallTime := 5000,
    subscribed := false, connectRaises := false, probeHasTicks := true }

/-- A state for the C10 witness. -/
def c10WitnessState : MonitorState :=
  { last_tick_time := 1000, day_off_date := none, timeout_retries := 0,
    slow_tick_warning_level := 0, was_trading := true }

end SKBridge

namespace SKBridge

/-! ## Sanity theorems for the clock embedding -/

theorem dayOpenBuffered_value : dayOpenBuffered = 30540 := by decide

theorem nightCloseBuffered_value : nightCloseBuffered = 18060 := by decide

theorem night_session_wraps : nightCloseBuffered < nightOpenBuffered := by decide

/-! ## Shared lemmas about the supervisor iteration -/

/-- config.py assigns neither slow-tick threshold, so the attribute read in
get_current_warning_threshold raises `AttributeError` for every input. -/
theorem get_current_warning_threshold_raises (dt : PyDateTime) :
    get_current_warning_threshold dt = Except.error PyExc.attributeError := by
  unfold get_current_warning_threshold
  split <;> rfl

/-- A trading-hours iteration with the subscription up dies on the threshold
read before reaching the health-check arms. -/
theorem monitorStep_trading_subscribed_raises (s : MonitorState) (e : IterEnv)
    (ht : is_trading_time e.dtNow s.day_off_date = true) (hs : e.subscribed = true) :
    monitorStep s e = Except.error PyExc.attributeError := by
  unfold monitorStep
  rw [ht, hs]
  simp [get_current_warning_threshold_raises]

/-- Any iteration that completes leaves `timeout_retries` at zero or
unchanged: the only increment sits behind the raising threshold read. -/
theorem monitorStep_ok_retries (s : MonitorState) (e : IterEnv) (s' : MonitorState)
    (acts : List MonitorAct) (h : monitorStep s e = Except.ok (s', acts)) :
    s'.timeout_retries = 0 ∨ s'.timeout_retries = s.timeout_retries := by
  by_cases ht : is_trading_time e.dtNow s.day_off_date = true
  · by_cases hs : e.subscribed = true
    · rw [monitorStep_trading_subscribed_raises s e ht hs] at h
      exact absurd h (by simp)
    · unfold monitorStep at h
      rw [ht] at h
      rw [Bool.not_eq_true] at hs
      rw [hs] at h
      simp only [Bool.true_eq_false, if_false, if_true, Except.ok.injEq,
        Prod.mk.injEq] at h
      right
      rw [← h.1]
  · rw [Bool.not_eq_true] at ht
    unfold monitorStep at h
    rw [ht] at h
    simp only [if_true, Except.ok.injEq, Prod.mk.injEq] at h
    left
    rw [← h.1]

/-- A completing iteration never changes `last_tick_time`: the supervisor
loop only reads it. -/
theorem monitorStep_ok_last_tick (s : MonitorState) (e : IterEnv) (s' : MonitorState)
    (acts : List MonitorAct) (h : monitorStep s e = Except.ok (s', acts)) :
    s'.last_tick_time = s.last_tick_time := by
  unfold monitorStep at h
  split at h
  · simp only [Except.ok.injEq, Prod.mk.injEq] at h
    rw [← h.1]
  · split at h
    · simp only [Except.ok.injEq, Prod.mk.injEq] at h
      rw [← h.1]
    · rw [get_current_warning_threshold_raises] at h
      exact absurd h (by simp)

/-- Zero `timeout_retries` is preserved by every completing iteration. -/
theorem monitorStep_retries_zero (s : MonitorState) (e : IterEnv) (s' : MonitorState)
    (acts : List MonitorAct) (h0 : s.timeout_retries = 0)
    (h : monitorStep s e = Except.ok (s', acts)) : s'.timeout_retries = 0 := by
  rcases monitorStep_ok_retries s e s' acts h with hz | heq
  · exact hz
  · rw [heq, h0]

/-- Along any run of the loop from a zero-retry state, retries stay zero. -/
theorem runMonitor_retries_zero (envs : List IterEnv) (s0 s : MonitorState)
    (h0 : s0.timeout_retries = 0) (h : runMonitor s0 envs = some s) :
    s.timeout_retries = 0 := by
  induction envs generalizing s0 with
  | nil =>
    unfold runMonitor at h
    rw [← Option.some_inj.mp h]
    exact h0
  | cons e es ih =>
    unfold runMonitor at h
    cases hstep : monitorStep s0 e with
    | error exc => rw [hstep] at h; exact absurd h (by simp)
    | ok pair =>
      rw [hstep] at h
      exact ih pair.1 (monitorStep_retries_zero s0 e pair.1 pair.2 h0 (by rw [hstep])) h

/-! ## Per-claim theorems -/

/-- C1: on a critical-timeout iteration (trading hours, subscription up,
tick silence above `TIMEOUT_SECONDS`, incremented retries past the maximum)
the supervisor body raises `AttributeError` at the threshold read, so none
of the claimed actions — resetting the warning level, incrementing retries,
consulting the probe, declaring the holiday, reconnecting — happens. -/
theorem critical_timeout_iteration_dies_before_acting :
    c1Env.wallTime - c1State.last_tick_time > TIMEOUT_SECONDS
    ∧ c1State.timeout_retries + 1 > MAX_TIMEOUT_RETRIES
    ∧ is_trading_time c1Env.dtNow c1State.day_off_date = true
    ∧ c1Env.subscribed = true
    ∧ monitorStep c1State c1Env = Except.error PyExc.attributeError := by
  refine ⟨by decide, by decide, by decide, rfl, ?_⟩
  exact monitorStep_trading_subscribed_raises c1State c1Env (by decide) rfl

/-- C2: with both `SHIOAJI_API_KEY` and `SHIOAJI_SECRET_KEY` set and
non-empty, the startup credential check of main.py still raises
`AttributeError` — it reads `config.SHIOAJI_API_KEY`, a name config.py
never assigns (config.py binds `API_KEY`/`SECRET_KEY`) — so execution never
proceeds past the check. -/
theorem credential_check_raises_even_with_both_set :
    pyTruthy (envBothCredentialsSet "SHIOAJI_API_KEY") = true
    ∧ pyTruthy (envBothCredentialsSet "SHIOAJI_SECRET_KEY") = true
    ∧ mainCredentialGate envBothCredentialsSet = Except.error PyExc.attributeError := by
  refine ⟨by decide, by decide, rfl⟩

/-- C3: a perfectly healthy trading-hours iteration (subscription up, tick
silence far below every threshold) raises `AttributeError`: the
session-threshold computation reads `config.DAY_SESSION_SLOW_TICK_THRESHOLD`
/ `config.NIGHT_SESSION_SLOW_TICK_THRESHOLD`, names config.py never assigns,
so the health-check step never returns a value and the loop is not
exception-free. -/
theorem healthy_iteration_raises_attributeError :
    get_current_warning_threshold c3Env.dtNow = Except.error PyExc.attributeError
    ∧ is_trading_time c3Env.dtNow c3State.day_off_date = true
    ∧ c3Env.subscribed = true
    ∧ monitorStep c3State c3Env = Except.error PyExc.attributeError := by
  refine ⟨get_current_warning_threshold_raises c3Env.dtNow, by decide, rfl, ?_⟩
  exact monitorStep_trading_subscribed_raises c3State c3Env (by decide) rfl

/-- C4 counterexample: at 06:00 — inside `[night_close, day_open)` — the code
dates the night-open TODAY (a future instant), while the claim says
yesterday's night-open is used; the resulting UTC milliseconds differ. -/
theorem session_open_at_0600_uses_today :
    NIGHT_SESSION_END ≤ 21600 ∧ 21600 < DAY_SESSION_START
    ∧ sessionOpenStart { date := 10, timeOfDay := 21600 } = (10, NIGHT_SESSION_START)
    ∧ sessionOpenStartClaimed { date := 10, timeOfDay := 21600 } = (9, NIGHT_SESSION_START)
    ∧ sessionOpenUtcMillis { date := 10, timeOfDay := 21600 }
        ≠ taipeiToUtcMillis 9 NIGHT_SESSION_START := by decide

/-- C4 amended: the session open is today's day-open in the day window;
otherwise the night-open dated yesterday exactly when
`now.time < night_close`, and today's (still future) night-open for
`now.time ∈ [night_close, day_open)`; converted to UTC milliseconds. -/
theorem session_open_matches_amended (now : PyDateTime) :
    sessionOpenStart now = sessionOpenStartAmended now
    ∧ sessionOpenUtcMillis now
        = taipeiToUtcMillis (sessionOpenStartAmended now).1 (sessionOpenStartAmended now).2 := by
  have h : sessionOpenStart now = sessionOpenStartAmended now := by
    unfold sessionOpenStart sessionOpenStartAmended
    split_ifs <;> rfl
  refine ⟨h, ?_⟩
  unfold sessionOpenUtcMillis
  rw [h]

/-- C5: the probe returns false when the topic is absent from metadata; when
the metadata and offsets queries succeed it returns true iff some partition
reports an offset other than the `-1` sentinel; and it returns true whenever
any exception occurs during the lookup. -/
theorem probe_matches_claimed (now : PyDateTime) (env : KafkaProbeEnv) :
    has_opening_kafka_ticks now env = probeClaimedResult now env := by
  unfold has_opening_kafka_ticks probeClaimedResult
  cases hc : env.consumerInitRaises
  · cases hl : env.listTopicsResult with
    | raised => rfl
    | ok v =>
      cases v with
      | none => rfl
      | some ps =>
        cases hof : env.offsetsForTimesResult (sessionOpenUtcMillis now) with
        | raised => simp [hof]
        | ok offsets => simp [hof]
  · rfl

/-- C6 counterexample: Saturday 10:00 (time 36000 s).  The code returns
false (its Saturday guard fires because the night session DOES wrap,
`night_open > night_close`), while the claim's rule — gated on the night
session NOT wrapping — falls through to regular membership, which puts
10:00 inside the day session, i.e. open. -/
theorem saturday_morning_closed_despite_claim :
    pyWeekday { date := 5, timeOfDay := 36000 } = 5
    ∧ is_trading_time { date := 5, timeOfDay := 36000 } none = false
    ∧ saturdayClaimedResult { date := 5, timeOfDay := 36000 } = true := by decide

/-- C6 amended: on a Saturday (no holiday set), trading is closed exactly
when the time is at or past the buffered night close and the night session
wraps midnight (`night_close < night_open` buffered); every other Saturday
time is decided by the regular day/night membership rules. -/
theorem saturday_rule_amended (dt : PyDateTime) (hsat : pyWeekday dt = 5) :
    is_trading_time dt none =
      if nightCloseBuffered ≤ dt.timeOfDay ∧ nightCloseBuffered < nightOpenBuffered then
        false
      else inDaySession dt.timeOfDay || inNightSession dt.timeOfDay := by
  unfold is_trading_time holidayClosed holidayNextMorningClosed
  rw [hsat]
  norm_num

/-- Witness for the amended C6 at Saturday 10:00. -/
theorem saturday_rule_amended_witness :
    is_trading_time { date := 5, timeOfDay := 36000 } none =
      if nightCloseBuffered ≤ (36000 : Nat) ∧ nightCloseBuffered < nightOpenBuffered then
        false
      else inDaySession 36000 || inNightSession 36000 :=
  saturday_rule_amended { date := 5, timeOfDay := 36000 } (by decide)

/-- C7: retries are positive only at trading-and-subscribed observation
points; an iteration observing no trading, or the subscription down during
trading, ends with zero retries.  (In this source no completing iteration
can ever raise `timeout_retries` above zero: the only increment sits behind
the raising threshold read.) -/
theorem timeout_retries_only_while_trading_and_subscribed
    (s0 : MonitorState) (h0 : s0.timeout_retries = 0) (envs : List IterEnv)
    (e : IterEnv) (s s' : MonitorState) (acts : List MonitorAct)
    (hreach : runMonitor s0 envs = some s)
    (hstep : monitorStep s e = Except.ok (s', acts)) :
    (0 < s'.timeout_retries →
      is_trading_time e.dtNow s.day_off_date = true ∧ e.subscribed = true)
    ∧ (is_trading_time e.dtNow s.day_off_date = false → s'.timeout_retries = 0)
    ∧ (is_trading_time e.dtNow s.day_off_date = true ∧ e.subscribed = false →
      s'.timeout_retries = 0) := by
  have hz : s.timeout_retries = 0 := runMonitor_retries_zero envs s0 s h0 hreach
  have hz' : s'.timeout_retries = 0 := monitorStep_retries_zero s e s' acts hz hstep
  exact ⟨fun hpos => absurd hpos (by simp [hz']), fun _ => hz', fun _ => hz'⟩

/-- Witness for C7: the loop-start state through a Sunday-noon iteration. -/
theorem timeout_retries_invariant_witness :
    (0 < c7StartState.timeout_retries →
      is_trading_time c7SundayEnv.dtNow c7StartState.day_off_date = true
      ∧ c7SundayEnv.subscribed = true)
    ∧ (is_trading_time c7SundayEnv.dtNow c7StartState.day_off_date = false →
      c7StartState.timeout_retries = 0)
    ∧ (is_trading_time c7SundayEnv.dtNow c7StartState.day_off_date = true
        ∧ c7SundayEnv.subscribed = false →
      c7StartState.timeout_retries = 0) :=
  timeout_retries_only_while_trading_and_subscribed c7StartState rfl []
    c7SundayEnv c7StartState c7StartState [MonitorAct.pollProducer] rfl rfl

/-- C8 counterexample: when the unsubscribe request itself raises, the
`except` clause swallows the error and returns without reaching
`self.logout()` — the handle is NOT released, refuting "in all cases
proceeds to call logout()". -/
theorem unsubscribe_request_raise_skips_logout :
    c8ManagerState.subscribed = true
    ∧ ManagerAct.logoutInvoked ∉ (unsubscribe_ticks c8ManagerState c8RaiseEnv).2
    ∧ (unsubscribe_ticks c8ManagerState c8RaiseEnv).1.api = some 7 := by decide

/-- C8 amended: unsubscribe_ticks is a no-op when not subscribed; issues the
request and waits (up to 100 polls of 100 ms) for the confirmation,
logging a timeout warning when it never arrives, then calls `logout()` —
except when the request itself raises, in which case the exception is
caught, the pending op cleared, a warning logged, and `logout()` is NOT
called. -/
theorem unsubscribe_matches_amended (st : ManagerState) (env : UnsubscribeEnv) :
    unsubscribe_ticks st env = unsubscribeAmendedSpec st env := by
  unfold unsubscribe_ticks unsubscribeAmendedSpec applyEvent16 logoutState
  rcases st with ⟨api, sub, pend⟩
  rcases env with ⟨rr, ca⟩
  cases sub
  · rfl
  · cases rr
    · cases ca with
      | none => rfl
      | some k =>
        by_cases hk : k < 100 <;> simp [hk]
    · rfl

/-- C9: with a live subscription on handle 0, two consecutive successful
connect_and_subscribe calls leave `subscribed = true` and issue no second
subscribe request, but each call replaces the SDK handle: afterwards the
manager holds fresh handle 2 while the one live subscription still sits on
the orphaned handle 0 — not on the handle the manager currently holds. -/
theorem double_connect_orphans_subscription :
    c9Call1.1.subscribed = true
    ∧ c9Call1.2.2.2 = none
    ∧ c9Call2.1.subscribed = true
    ∧ c9Call2.2.2.2 = none
    ∧ c9Call2.2.1.liveSubscribedHandles = [0]
    ∧ c9Call2.1.api = some 2
    ∧ c9Call2.2.1.liveSubscribedHandles ≠ [2] := by decide

/-- C10 counterexample: a supervisor iteration that observes the resumption
of trading hours (`was_trading = false`, now trading) completes without
writing `last_tick_time` (it stays 1000 though the clock reads 5000); and a
tick whose produce raises does not write it either. -/
theorem resumption_iteration_never_writes_last_tick :
    is_trading_time c10Env.dtNow c10State.day_off_date = true
    ∧ c10State.was_trading = false
    ∧ c10Env.wallTime = 5000
    ∧ monitorStep c10State c10Env =
        Except.ok ({ c10State with was_trading := true },
          [MonitorAct.pollProducer, MonitorAct.connectAttempt])
    ∧ ({ c10State with was_trading := true } : MonitorState).last_tick_time = 1000
    ∧ handleNewTick 1000 true 5000 = 1000 := by
  refine ⟨by decide, rfl, rfl, rfl, rfl, rfl⟩

/-- C10 amended: `last_tick_time` follows the write policy — written with
the `time.time()` reading on every successfully produced tick and on every
subscription-confirmed event, never by a supervisor iteration — and is
non-decreasing whenever the clock reading is at or past its current value. -/
theorem last_tick_write_policy_and_monotone (s : MonitorState) (ev : ServiceEvent)
    (s' : MonitorState) (acts : List MonitorAct)
    (hstep : serviceStep s ev = Except.ok (s', acts))
    (hclock : s.last_tick_time ≤ clockOfEvent ev s.last_tick_time) :
    s'.last_tick_time = lastTickWritePolicy s ev
    ∧ s.last_tick_time ≤ s'.last_tick_time := by
  cases ev with
  | tickArrives pr t =>
    unfold serviceStep at hstep
    simp only [Except.ok.injEq, Prod.mk.injEq] at hstep
    have hs' := hstep.1.symm
    subst hs'
    unfold lastTickWritePolicy handleNewTick
    unfold clockOfEvent at hclock
    cases pr
    · exact ⟨rfl, hclock⟩
    · exact ⟨rfl, le_refl _⟩
  | subscriptionConfirmed t =>
    unfold serviceStep at hstep
    simp only [Except.ok.injEq, Prod.mk.injEq] at hstep
    have hs' := hstep.1.symm
    subst hs'
    unfold clockOfEvent at hclock
    exact ⟨rfl, hclock⟩
  | monitorIteration e =>
    unfold serviceStep at hstep
    have hlt := monitorStep_ok_last_tick s e s' acts hstep
    exact ⟨hlt, le_of_eq hlt.symm⟩

/-- Witness for the amended C10 at a concrete subscription-confirmed event. -/
theorem last_tick_write_policy_witness :
    ({ c10WitnessState with last_tick_time := 5000 } : MonitorState).last_tick_time
        = lastTickWritePolicy c10WitnessState (ServiceEvent.subscriptionConfirmed 5000)
    ∧ c10WitnessState.last_tick_time ≤
        ({ c10WitnessState with last_tick_time := 5000 } : MonitorState).last_tick_time :=
  last_tick_write_policy_and_monotone c10WitnessState
    (ServiceEvent.subscriptionConfirmed 5000)
    { c10WitnessState with last_tick_time := 5000 } [] rfl (by decide)

end SKBridge
